import Mathlib

/-!
Verification development for the DCmotor repository (files `demoMQTT.py` and
`dcmotor/Mencoder.py`).  Python numbers are embedded as `ℚ`, Python ints as
`Int`, fallible paths as `Option`/`Except`.  Definitions follow the source
line by line; theorems settle the frozen claims.
-/

/-! ## Embedding of `dcmotor/Mencoder.py` (class `Encoder`) -/

/-- State of one `Encoder` instance: the stored configuration
(`pulses_per_rev`, `min_RPM`, `_watchdog`, `_new`, `_old`, `rpmkey`) and the
mutable estimator state (`_high_tick`, `_period`).  The `pi`/`gpio` handles and
the logger are external collaborators and carry no estimator state. -/
structure Encoder where
  rpmkey : String
  pulses_per_rev : ℚ
  min_RPM : ℚ
  watchdog : ℚ
  wNew : ℚ
  wOld : ℚ
  high_tick : Option Int
  period : Option ℚ
deriving DecidableEq

/-- The pigpio tick counter wraps at `2^32`. -/
def tickWrap : Int := 4294967296

/-- `pigpio.tickDiff(t1, t2)`: `tDiff = t2 - t1; if tDiff < 0: tDiff += (1 << 32)`. -/
def tickDiff (t1 t2 : Int) : Int :=
  let d := t2 - t1
  if d < 0 then d + tickWrap else d

/-- `Encoder.__init__` (Mencoder.py lines 8-59): clamps `min_RPM` to
`[1, 1000]`, fixes `_watchdog = 200` ms, clamps `weighting` to `[0, 0.99]`
and stores `_new = 1 - weighting`, `_old = weighting`; `pulses_per_rev` is
stored as passed; `_high_tick` and `_period` start as `None`. -/
def Encoder.init (rpmkey : String) (pulses_per_rev weighting min_RPM : ℚ) : Encoder :=
  let m := if min_RPM > 1000 then (1000 : ℚ) else if min_RPM < 1 then 1 else min_RPM
  let w := if weighting < 0 then (0 : ℚ) else if weighting > 0.99 then 0.99 else weighting
  { rpmkey := rpmkey
    pulses_per_rev := pulses_per_rev
    min_RPM := m
    watchdog := 200
    wNew := 1 - w
    wOld := w
    high_tick := none
    period := none }

/-- `Encoder._cbf` (Mencoder.py lines 62-76).  `level = 1` is a rising edge,
`level = 2` a watchdog timeout; any other level leaves the state unchanged. -/
def Encoder.cbf (e : Encoder) (level tick : Int) : Encoder :=
  if level = 1 then
    let e1 :=
      match e.high_tick with
      | some ht =>
        let t := tickDiff ht tick
        match e.period with
        | some p => { e with period := some (e.wOld * p + e.wNew * (t : ℚ)) }
        | none => { e with period := some ((t : ℚ)) }
      | none => e
    { e1 with high_tick := some tick }
  else if level = 2 then
    match e.period with
    | some p => if p < 2000000000 then { e with period := some (p + e.watchdog * 1000) } else e
    | none => e
  else e

/-- Python `int()` applied to a rational: truncation toward zero. -/
def pyInt (q : ℚ) : Int := if q < 0 then -⌊-q⌋ else ⌊q⌋

/-- The RPM value stored by `Encoder.getdata` (Mencoder.py lines 78-88):
`RPM = 0.0`; if a period exists, `RPM = 60000000.0 / (period * pulses_per_rev)`
clamped to `0.0` when below `min_RPM`; the published value is `int(RPM)`. -/
def Encoder.rpmOut (e : Encoder) : Int :=
  match e.period with
  | none => 0
  | some p =>
    let r := 60000000 / (p * e.pulses_per_rev)
    if r < e.min_RPM then 0 else pyInt r

/-- `Encoder.getdata` returns `self.outgoing`, the dict `{rpmkey: int(RPM)}`. -/
def Encoder.getdata (e : Encoder) : List (String × Int) := [(e.rpmkey, e.rpmOut)]

example : tickDiff 10 4 = tickWrap - 6 := by decide
example : tickDiff 0 9 = 9 := by decide
example : ((Encoder.init "rpm1i" 20 0 5).cbf 1 0).high_tick = some 0 := by
  simp [Encoder.init, Encoder.cbf]
example : (((Encoder.init "rpm1i" 20 0 5).cbf 1 0).cbf 1 9).period = some 9 := by
  simp [Encoder.init, Encoder.cbf, tickDiff, tickWrap]
example : (((Encoder.init "rpm1i" 20 0 5).cbf 1 0).cbf 1 9).rpmOut = 333333 := by
  simp [Encoder.init, Encoder.cbf, tickDiff, tickWrap, Encoder.rpmOut, pyInt]
  norm_num

/-- Iterated watchdog timeouts (`level = 2` callbacks) with no intervening edge. -/
def Encoder.afterTimeouts (e : Encoder) : Nat → Encoder
  | 0 => e
  | n + 1 => (e.afterTimeouts n).cbf 2 0

/-- The smoothed period of an estimator state, defaulting to 0 when unset. -/
def periodD (e : Encoder) : ℚ := e.period.getD 0

/-- The derived (unclamped, untruncated) RPM of an estimator state,
`60000000 / (period * pulses_per_rev)`. -/
def rpmOfPeriod (e : Encoder) : ℚ := 60000000 / (periodD e * e.pulses_per_rev)

/-- An event delivered to `Encoder._cbf`: a rising edge with its tick, or a
watchdog timeout.  (The callback is registered for `RISING_EDGE` plus a
watchdog, so these are the only levels delivered.) -/
inductive EncEvent where
  | rising (tick : Int)
  | timeout
deriving DecidableEq

/-- Deliver a list of events to the estimator, in order. -/
def runEvents (e : Encoder) : List EncEvent → Encoder
  | [] => e
  | ev :: evs =>
    runEvents (match ev with | .rising t => e.cbf 1 t | .timeout => e.cbf 2 0) evs

/-- Number of rising-edge events in an event list. -/
def countRising : List EncEvent → Nat
  | [] => 0
  | .rising _ :: evs => countRising evs + 1
  | .timeout :: evs => countRising evs

/-! ## Embedding of `demoMQTT.py` -/

/-- A Python value that is either a `str` or a `bytes` object (both carrying
their character content).  `demoMQTT.py` compares the `str` regex group
`msgmatch.group(1)` against the `bytes` literal written in the source. -/
inductive PyStrVal where
  | str (s : String)
  | bytes (s : String)
deriving DecidableEq

/-- Python 3 `==` on `str`/`bytes` values: equal kinds compare contents, a
`str` never equals a `bytes`. -/
def pyStrEq : PyStrVal → PyStrVal → Bool
  | .str a, .str b => a == b
  | .bytes a, .bytes b => a == b
  | _, _ => false

/-- `re.match(MQTT_REGEX, topic)` where
`MQTT_REGEX = 'nred2pi/([^/]+)/([^/]+)'` (with `MQTT_SUB_LVL1 = 'nred2' +
MQTT_CLIENT_ID` and `MQTT_CLIENT_ID = 'pi'`): the topic must start with the
literal `nred2pi`, a slash, a nonempty slash-free group, a slash, and a
nonempty group; returns the two captured groups. -/
def topicMatch (topic : String) : Option (String × String) :=
  match topic.splitOn "/" with
  | l1 :: l2 :: l3 :: _ =>
    if l1 = "nred2pi" ∧ l2 ≠ "" ∧ l3 ≠ "" then some (l2, l3) else none
  | _ => none

/-- The global command state written by `on_message`: `mqtt_DC_speed[0]`,
`mqtt_DC_speed[1]` and `mqtt_DC_moving`. -/
structure CmdState where
  speed0 : Int
  speed1 : Int
  moving : String
deriving DecidableEq

/-- A decoded inbound JSON command payload with the fields `on_message` reads. -/
structure Payload where
  right : Int
  left : Int
  moving : String
deriving DecidableEq

/-- `on_message` (demoMQTT.py lines 125-137): if the topic matches
`MQTT_REGEX`, the payload is parsed and the state is overwritten only when
`mqtt_topic[1] == b'buggyZCMD'`; `mqtt_topic[1]` is the `str` group while
`b'buggyZCMD'` is a `bytes` literal. -/
def on_message (st : CmdState) (topic : String) (payload : Payload) : CmdState :=
  match topicMatch topic with
  | none => st
  | some (l2, _) =>
    if pyStrEq (.str l2) (.bytes "buggyZCMD") then
      { speed0 := payload.right, speed1 := payload.left, moving := payload.moving }
    else st

/-- A motor method invocation, as named by the spec's actuator capability
(`forward`/`backward`/`stop`; the source spells backward `backwards`). -/
inductive MotorCall where
  | forward (m : Int)
  | backward (m : Int)
  | stop
deriving DecidableEq

/-- The Python object a motor method is invoked on in the apply loop: a
`DCMotor` instance, or the `(name, DCMotor)` tuple produced by iterating
`DCmotorSet.items()`. -/
inductive MotorObj where
  | dcmotor
  | namedPair (name : String)
deriving DecidableEq

/-- Invoking a motor method: a `DCMotor` accepts it; a tuple has no such
attribute, so Python raises `AttributeError`. -/
def invokeMotor : MotorObj → MotorCall → Except String MotorCall
  | .dcmotor, c => .ok c
  | .namedPair _, _ => .error "AttributeError"

/-- `speed = min(100, max(-100, mqtt_DC_speed[i]))` (demoMQTT.py line 284). -/
def clampSpeed (x : Int) : Int := min 100 (max (-100) x)

/-- Body of the apply loop (demoMQTT.py lines 284-285) for one bound object
and one commanded speed:
`motor.forward(speed) if speed > 0 else motor.backwards(abs(speed)) if speed < 0 else motor.stop()`. -/
def applyOne (obj : MotorObj) (cmd : Int) : Except String MotorCall :=
  let speed := clampSpeed cmd
  if speed > 0 then invokeMotor obj (.forward speed)
  else if speed < 0 then invokeMotor obj (.backward |speed|)
  else invokeMotor obj .stop

/-- The apply phase exactly as written (demoMQTT.py line 283):
`for i, motor in enumerate(DCmotorSet.items())` binds `motor` to the
`(name, DCMotor)` pair, and `mqtt_DC_speed[i]` pairs each item with its
commanded speed. -/
def applyPhaseAsWritten : List (String × Int) → Except String (List MotorCall)
  | [] => .ok []
  | (name, cmd) :: rest => do
    let c ← applyOne (.namedPair name) cmd
    let cs ← applyPhaseAsWritten rest
    pure (c :: cs)

/-- The apply phase with each method invoked on the `DCMotor` value itself
(the unpacking used by the other loops over `DCmotorSet.items()`). -/
def applyPhaseOnMotors : List Int → Except String (List MotorCall)
  | [] => .ok []
  | cmd :: rest => do
    let c ← applyOne .dcmotor cmd
    let cs ← applyPhaseOnMotors rest
    pure (c :: cs)

example : applyOne .dcmotor 150 = .ok (.forward 100) := rfl
example : applyOne .dcmotor (-150) = .ok (.backward 100) := rfl
example : applyOne .dcmotor 0 = .ok .stop := rfl
example : applyPhaseAsWritten [("dc_motor1", 0), ("dc_motor2", 0)] = .error "AttributeError" := rfl

/-- One entry of `deviceD`: the per-device dict built by `setup_device`
(demoMQTT.py lines 167-197).  Every data key is initialised to `0`, so only
the ordered key list is tracked. -/
structure DevInfo where
  dataKeys : List String
  lvl2 : String
  pubtopic : String
  send : Bool
deriving DecidableEq

/-- The module-level registry state touched by `setup_device`: `deviceD`
(insertion ordered), `MQTT_SUB_TOPIC`, and the collision warnings logged so
far (each recorded as `(already-owning device, key)`). -/
structure RegState where
  deviceD : List (String × DevInfo)
  subTopics : List String
  warnings : List (String × String)
deriving DecidableEq

/-- `deviceD[device]['data'][key] = 0` on a dict: append the key if new. -/
def addKey (ks : List String) (k : String) : List String :=
  if k ∈ ks then ks else ks ++ [k]

/-- The duplicate-key scan of `setup_device` (lines 179-183): for each key,
every device already holding that key triggers one warning.  During the scan
`deviceD` already contains the new device (inserted last) with the keys
processed so far (`acc`), so a repeated key would also warn against the new
device itself. -/
def scanKeys (olds : List (String × DevInfo)) (device : String) :
    List String → List String → List String × List (String × String)
  | acc, [] => (acc, [])
  | acc, k :: ks =>
    let here :=
      ((olds.filter fun it => k ∈ it.2.dataKeys).map fun it => (it.1, k))
        ++ (if k ∈ acc then [(device, k)] else [])
    let rest := scanKeys olds device (addKey acc k) ks
    (rest.1, here ++ rest.2)

/-- The subscribe topic built at line 173:
`f"{MQTT_SUB_LVL1}/{lvl2}ZCMD/+"` with `MQTT_SUB_LVL1 = 'nred2pi'`. -/
def mkTopic (lvl2 : String) : String := "nred2pi/" ++ lvl2 ++ "ZCMD/+"

/-- The publish topic built at line 184:
`MQTT_PUB_LVL1 + lvl2 + '/' + publvl3` with `MQTT_PUB_LVL1 = 'pi2nred/'`. -/
def mkPubTopic (lvl2 publvl3 : String) : String :=
  "pi2nred/" ++ lvl2 ++ "/" ++ publvl3

/-- `setup_device(device, lvl2, publvl3, data_keys)` (demoMQTT.py lines
167-197).  A device id already present calls `sys.exit` (modelled as `none`).
Otherwise: if the derived subscribe topic is new it is appended and the keys
are stored without any collision scan; if the topic is already registered the
duplicate-key scan runs and one warning is logged per (key, owning device)
pair.  In both cases the new device is appended with `send = False`. -/
def setup_device (st : RegState) (device lvl2 publvl3 : String)
    (data_keys : List String) : Option RegState :=
  match st.deviceD.lookup device with
  | some _ => none
  | none =>
    let topic := mkTopic lvl2
    if topic ∈ st.subTopics then
      let scanned := scanKeys st.deviceD device [] data_keys
      some { deviceD := st.deviceD ++
               [(device, ⟨scanned.1, lvl2, mkPubTopic lvl2 publvl3, false⟩)]
             subTopics := st.subTopics
             warnings := st.warnings ++ scanned.2 }
    else
      some { deviceD := st.deviceD ++
               [(device, ⟨data_keys.foldl addKey [], lvl2, mkPubTopic lvl2 publvl3, false⟩)]
             subTopics := st.subTopics ++ [topic]
             warnings := st.warnings }

/-- The empty registry state at the top of `main`. -/
def emptyReg : RegState := ⟨[], [], []⟩

/-- One device as seen by the publish phase of the main loop: its publish
topic, its latest telemetry dict, and its `send` (dirty) flag. -/
structure PubDev where
  pubtopic : String
  data : List (String × Int)
  send : Bool
deriving DecidableEq

/-- `json.dumps` of a telemetry dict, keys in insertion order. -/
def jsonDumps (d : List (String × Int)) : String :=
  "\x7b" ++ String.intercalate ", "
    (d.map fun kv => "\x22" ++ kv.1 ++ "\x22: " ++ toString kv.2) ++ "\x7d"

/-- The cadence gate of the main loop (demoMQTT.py line 287):
`(perf_counter() - t0_sec) > msginterval`. -/
def cadenceGate (elapsed msginterval : ℚ) : Bool := decide (msginterval < elapsed)

/-- The publish phase (demoMQTT.py lines 295-299): every device whose `send`
flag is set has `(pubtopic, json.dumps(data))` published and its flag
cleared; other devices are untouched.  Returns the updated device list and
the published messages in order. -/
def publishPhase : List PubDev → List PubDev × List (String × String)
  | [] => ([], [])
  | d :: ds =>
    let rest := publishPhase ds
    if d.send then
      ({ d with send := false } :: rest.1, (d.pubtopic, jsonDumps d.data) :: rest.2)
    else (d :: rest.1, rest.2)

/-- An action observable on the shutdown path of `main`. -/
inductive ExitAction where
  | gpioCleanup
  | logMsg
  | motorStop (device : String)
  | encoderCancel (device : String)
deriving DecidableEq

/-- How the infinite `while True` loop of `main` was left. -/
inductive LoopExit where
  | keyboardInterrupt
  | otherError
deriving DecidableEq

/-- The `try/except KeyboardInterrupt/finally` structure around the main loop
(demoMQTT.py lines 281-305): the handler's actions run only on
`KeyboardInterrupt`; the `finally` actions run on every exit. -/
def tryExceptFinally (outcome : LoopExit) (handlerActs finallyActs : List ExitAction) :
    List ExitAction :=
  (match outcome with
   | .keyboardInterrupt => handlerActs
   | .otherError => []) ++ finallyActs

/-- Completed actions of the `except KeyboardInterrupt` block (line 302): its
only statement evaluates `pcolor.WARNING` inside an f-string, and class
`pcolor` has no attribute `WARNING`, so an `AttributeError` is raised before
the log call completes — no action finishes. -/
def interruptHandlerActs : List ExitAction := []

/-- The `finally` block (lines 303-305): `GPIO.cleanup()` then a log line. -/
def finallyBlockActs : List ExitAction := [.gpioCleanup, .logMsg]

/-- All shutdown actions performed on a given exit of the main loop. -/
def exitActions (o : LoopExit) : List ExitAction :=
  tryExceptFinally o interruptHandlerActs finallyBlockActs

example :
    setup_device emptyReg "devA" "x" "p" ["k"] =
      some ⟨[("devA", ⟨["k"], "x", "pi2nred/x/p", false⟩)], ["nred2pi/xZCMD/+"], []⟩ := by
  decide

/-! ## Helper lemmas -/

lemma init_rpmkey (key : String) (ppr w m : ℚ) :
    (Encoder.init key ppr w m).rpmkey = key := rfl

lemma init_ppr (key : String) (ppr w m : ℚ) :
    (Encoder.init key ppr w m).pulses_per_rev = ppr := rfl

lemma init_min_RPM (key : String) (ppr w m : ℚ) :
    (Encoder.init key ppr w m).min_RPM =
      if m > 1000 then (1000 : ℚ) else if m < 1 then 1 else m := rfl

lemma init_watchdog (key : String) (ppr w m : ℚ) :
    (Encoder.init key ppr w m).watchdog = 200 := rfl

lemma init_wOld (key : String) (ppr w m : ℚ) :
    (Encoder.init key ppr w m).wOld =
      if w < 0 then (0 : ℚ) else if w > 0.99 then 0.99 else w := rfl

lemma init_wNew (key : String) (ppr w m : ℚ) :
    (Encoder.init key ppr w m).wNew = 1 - (Encoder.init key ppr w m).wOld := rfl

lemma init_high_tick (key : String) (ppr w m : ℚ) :
    (Encoder.init key ppr w m).high_tick = none := rfl

lemma init_period (key : String) (ppr w m : ℚ) :
    (Encoder.init key ppr w m).period = none := rfl

/-! ## Claim C1 -/

/-- Claim C1: the claim says a message whose topic matches the registered
pattern and carries a `{"right", "left", "moving"}` payload updates the
command state.  In the code, `on_message` compares the `str` group
`mqtt_topic[1]` with the `bytes` literal `b'buggyZCMD'`; in Python 3 a `str`
never equals a `bytes`, so the guard is never taken and `on_message` leaves
the command state unchanged on every input — the code contradicts the
program's evident intent of routing commands to the motors. -/
theorem C1_on_message_is_noop (st : CmdState) (topic : String) (payload : Payload) :
    on_message st topic payload = st := by
  unfold on_message
  cases h : topicMatch topic with
  | none => rfl
  | some g =>
    obtain ⟨l2, l3⟩ := g
    simp [pyStrEq]

/-! ## Claim C2 -/

/-- Claim C2: the clamp and the three-way dispatch are written as the claim
states (150 clamps to `forward(100)`, -150 to `backwards(100)`, 0 to
`stop()`), but the loop `for i, motor in enumerate(DCmotorSet.items())` binds
`motor` to the `(name, DCMotor)` tuple, so the very first iteration (both
commands 0 at start-up) raises `AttributeError` instead of invoking any motor
method: the code contradicts the unpacking it itself uses two loops later. -/
theorem C2_apply_phase_attribute_error :
    applyPhaseAsWritten [("dc_motor1", 0), ("dc_motor2", 0)] = .error "AttributeError"
    ∧ applyOne .dcmotor 150 = .ok (.forward 100)
    ∧ applyOne .dcmotor (-150) = .ok (.backward 100)
    ∧ applyOne .dcmotor 0 = .ok .stop
    ∧ applyPhaseOnMotors [150, -150, 0] =
        .ok [.forward 100, .backward 100, .stop] :=
  ⟨rfl, rfl, rfl, rfl, rfl⟩

/-! ## Claim C6 -/

/-- Claim C6 counterexample: on the `KeyboardInterrupt` exit path no actuator
is commanded to stop — `motorStop` never appears among the shutdown actions,
refuting the claim that every exit path stops all actuators and releases all
sensor subscriptions. -/
theorem C6_counterexample :
    ExitAction.motorStop "dc_motor1" ∉ exitActions .keyboardInterrupt := by
  decide

/-- Claim C6 (amended): on every exit path of the main loop — interrupt or
other exception — exactly the `finally` block completes: `GPIO.cleanup()`
followed by a log line.  No `stop()` is issued to any actuator and
`Encoder.cancel` is never invoked, so no encoder callback or watchdog is
released there. -/
theorem C6_exit_runs_only_gpio_cleanup (o : LoopExit) :
    exitActions o = [.gpioCleanup, .logMsg] := by
  cases o <;> rfl

/-! ## Claim C7 -/

/-- Claim C7 counterexample: the constructor performs no validation of
`pulses_per_rev`; passing `-1` stores `-1`, so the stored configuration does
not satisfy `pulsesPerRevolution > 0`. -/
theorem C7_counterexample :
    (Encoder.init "rpm1i" (-1) 0 5).pulses_per_rev = -1
    ∧ ¬ 0 < (Encoder.init "rpm1i" (-1) 0 5).pulses_per_rev := by
  refine ⟨rfl, ?_⟩
  rw [init_ppr]
  norm_num

/-- Claim C7 (amended): for every argument tuple, the stored configuration
satisfies: `weighting` is clamped into `[0, 0.99]` (and `_new = 1 - _old`),
`min_RPM` is clamped into `[1, 1000]`, the watchdog interval is fixed at 200
ms, and `pulses_per_rev` is stored exactly as passed, without validation. -/
theorem C7_stored_config (key : String) (ppr w m : ℚ) :
    0 ≤ (Encoder.init key ppr w m).wOld
    ∧ (Encoder.init key ppr w m).wOld ≤ 0.99
    ∧ (Encoder.init key ppr w m).wNew = 1 - (Encoder.init key ppr w m).wOld
    ∧ 1 ≤ (Encoder.init key ppr w m).min_RPM
    ∧ (Encoder.init key ppr w m).min_RPM ≤ 1000
    ∧ (Encoder.init key ppr w m).watchdog = 200
    ∧ (Encoder.init key ppr w m).pulses_per_rev = ppr := by
  rw [init_wOld, init_wNew, init_min_RPM, init_watchdog, init_ppr, init_wOld]
  refine ⟨?_, ?_, rfl, ?_, ?_, rfl, rfl⟩ <;> split_ifs <;> linarith

/-! ## Claim C3 -/

/-- The estimator state after two rising edges 9 microseconds apart,
constructed from the configuration used in `demoMQTT.py`
(`pulses_per_rev = 20`, `weighting` defaulted to 0, `min_RPM = 5`). -/
def encW : Encoder := (Encoder.init "rpm1i" 20 0 5).cbf 1 0

/-- `encW` after one more rising edge at tick 9: its smoothed period is 9 µs. -/
def encEx : Encoder := encW.cbf 1 9

lemma encEx_period : encEx.period = some 9 := by
  norm_num [encEx, encW, Encoder.init, Encoder.cbf, tickDiff, tickWrap]

lemma encEx_ppr : encEx.pulses_per_rev = 20 := rfl

lemma encEx_min_RPM : encEx.min_RPM = 5 := by
  norm_num [encEx, encW, Encoder.init, Encoder.cbf, tickDiff, tickWrap]

/-- Claim C3 counterexample: with period 9 µs and 20 pulses per revolution
the claimed value is `60e6 / (9·20) = 1000000/3`, but `getdata` publishes
`int(RPM) = 333333`, which differs — the published RPM is the integer
truncation of the formula, not the formula's value. -/
theorem C3_counterexample :
    encEx.period = some 9
    ∧ encEx.rpmOut = 333333
    ∧ ((encEx.rpmOut : ℚ) ≠ 60000000 / (9 * encEx.pulses_per_rev)) := by
  refine ⟨encEx_period, ?_, ?_⟩
  · norm_num [encEx, encW, Encoder.init, Encoder.cbf, tickDiff, tickWrap,
      Encoder.rpmOut, pyInt]
  · rw [encEx_ppr]
    norm_num [encEx, encW, Encoder.init, Encoder.cbf, tickDiff, tickWrap,
      Encoder.rpmOut, pyInt]

/-- Claim C3 (amended): `getdata` publishes 0 when no smoothed period exists;
otherwise it publishes the integer truncation of
`60e6 / (period · pulses_per_rev)`, except that it publishes 0 when that
(untruncated) value falls below the `min_RPM` floor; in the untruncated
branch the published value is at least 1 whenever `min_RPM ≥ 1`, hence the
published RPM is always ≥ 0 for a constructor-built estimator. -/
theorem C3_getdata_truncated_rpm (e : Encoder) :
    (e.period = none → e.rpmOut = 0)
    ∧ (∀ p, e.period = some p →
        ((60000000 / (p * e.pulses_per_rev) < e.min_RPM → e.rpmOut = 0)
         ∧ (e.min_RPM ≤ 60000000 / (p * e.pulses_per_rev) →
             e.rpmOut = pyInt (60000000 / (p * e.pulses_per_rev))
             ∧ (1 ≤ e.min_RPM → 1 ≤ e.rpmOut))))
    ∧ e.getdata = [(e.rpmkey, e.rpmOut)] := by
  refine ⟨?_, ?_, rfl⟩
  · intro h
    simp [Encoder.rpmOut, h]
  · intro p hp
    constructor
    · intro hlt
      simp [Encoder.rpmOut, hp, hlt]
    · intro hge
      have hnl : ¬ 60000000 / (p * e.pulses_per_rev) < e.min_RPM := not_lt.mpr hge
      have hval : e.rpmOut = pyInt (60000000 / (p * e.pulses_per_rev)) := by
        simp [Encoder.rpmOut, hp, hnl]
      refine ⟨hval, ?_⟩
      intro h1
      have h0 : (0 : ℚ) ≤ 60000000 / (p * e.pulses_per_rev) := by linarith
      have hfl : pyInt (60000000 / (p * e.pulses_per_rev)) =
          ⌊(60000000 / (p * e.pulses_per_rev) : ℚ)⌋ := by
        simp [pyInt, not_lt.mpr h0]
      rw [hval, hfl]
      exact Int.le_floor.mpr (by push_cast; linarith)

/-- Claim C3 witness: the amended theorem applied at `encEx` (period 9 µs,
`pulses_per_rev = 20`, `min_RPM = 5`) gives a published value of 333333. -/
theorem C3_witness : encEx.rpmOut = 333333 := by
  have h := (C3_getdata_truncated_rpm encEx).2.1 9 encEx_period
  have h2 := (h.2 (by rw [encEx_ppr, encEx_min_RPM]; norm_num)).1
  rw [h2, encEx_ppr]
  norm_num [pyInt]

/-! ## Claim C9 -/

lemma publishPhase_msgs (devs : List PubDev) :
    (publishPhase devs).2 =
      (devs.filter fun d => d.send).map fun d => (d.pubtopic, jsonDumps d.data) := by
  induction devs with
  | nil => rfl
  | cons d ds ih => cases hs : d.send <;> simp [publishPhase, hs, ih]

lemma publishPhase_devs (devs : List PubDev) :
    (publishPhase devs).1 = devs.map fun d => { d with send := false } := by
  induction devs with
  | nil => rfl
  | cons d ds ih =>
    cases d with
    | mk pt data send => cases send <;> simp [publishPhase, ih]

/-- Claim C9: the cadence gate is entered only when the elapsed time is at
least the interval (the code tests strict `>`); within the publish phase
every device with its `send` flag set is published exactly once as
`(pubtopic, json.dumps(data))`, in order, and its flag is cleared; devices
with a clear flag are not published and are left unchanged; the number of
published messages equals the number of dirty devices. -/
theorem C9_publish_each_dirty_once (devs : List PubDev) (elapsed interval : ℚ) :
    (cadenceGate elapsed interval = true → interval ≤ elapsed)
    ∧ (publishPhase devs).2 =
        (devs.filter fun d => d.send).map (fun d => (d.pubtopic, jsonDumps d.data))
    ∧ (publishPhase devs).1 = devs.map (fun d => { d with send := false })
    ∧ (publishPhase devs).2.length = (devs.filter fun d => d.send).length := by
  refine ⟨?_, publishPhase_msgs devs, publishPhase_devs devs, ?_⟩
  · intro h
    simp only [cadenceGate, decide_eq_true_eq] at h
    linarith
  · rw [publishPhase_msgs devs, List.length_map]

/-- A cycle with two dirty devices and one clean device. -/
def pubExample : List PubDev :=
  [⟨"pi2nred/buggy/pispeedSensor", [("a0f", 1)], true⟩,
   ⟨"pi2nred/buggy/pispeedSensor2", [("a1f", 2)], true⟩,
   ⟨"pi2nred/buggy/pispeedSensor3", [("etc", 3)], false⟩]

/-- Claim C9 witness: with elapsed 1 s and interval 0.5 s the gate implies
the interval has passed, and the cycle with two dirty devices publishes
exactly two messages. -/
theorem C9_witness :
    (1 : ℚ) / 2 ≤ 1 ∧ (publishPhase pubExample).2.length = 2 := by
  constructor
  · exact (C9_publish_each_dirty_once pubExample 1 (1 / 2)).1
      (by norm_num [cadenceGate])
  · rw [(C9_publish_each_dirty_once pubExample 1 (1 / 2)).2.2.2]
    rfl

/-! ## Claim C10 -/

lemma cbf_timeout_of_period_none (e : Encoder) (t : Int) (h : e.period = none) :
    e.cbf 2 t = e := by
  simp [Encoder.cbf, h]

lemma cbf_rising_of_high_tick_none (e : Encoder) (t : Int) (h : e.high_tick = none) :
    e.cbf 1 t = { e with high_tick := some t } := by
  simp [Encoder.cbf, h]

lemma runEvents_no_rising (evs : List EncEvent) (e : Encoder) (hp : e.period = none)
    (hc : countRising evs = 0) : runEvents e evs = e := by
  induction evs generalizing e with
  | nil => rfl
  | cons ev evs ih =>
    cases ev with
    | rising t => simp [countRising] at hc
    | timeout =>
      have h1 : runEvents e (.timeout :: evs) = runEvents (e.cbf 2 0) evs := rfl
      rw [h1, cbf_timeout_of_period_none e 0 hp]
      exact ih e hp (by simpa [countRising] using hc)

lemma runEvents_period_none (evs : List EncEvent) (e : Encoder) (hp : e.period = none)
    (hh : e.high_tick = none) (hc : countRising evs ≤ 1) :
    (runEvents e evs).period = none := by
  induction evs generalizing e with
  | nil => exact hp
  | cons ev evs ih =>
    cases ev with
    | timeout =>
      have h1 : runEvents e (.timeout :: evs) = runEvents (e.cbf 2 0) evs := rfl
      rw [h1, cbf_timeout_of_period_none e 0 hp]
      exact ih e hp hh (by simpa [countRising] using hc)
    | rising t =>
      have h1 : runEvents e (.rising t :: evs) = runEvents (e.cbf 1 t) evs := rfl
      rw [h1, cbf_rising_of_high_tick_none e t hh]
      have hc0 : countRising evs = 0 := by
        simp only [countRising] at hc
        omega
      rw [runEvents_no_rising evs _ (by simpa using hp) hc0]
      simpa using hp

/-- Claim C10: for every event sequence containing at most one RISING event
(and any number of TIMEOUT events in any positions), a freshly constructed
estimator ends with no smoothed period and reports RPM 0: the first RISING
event only records a timestamp, so a nonzero RPM needs at least two RISING
events. -/
theorem C10_at_most_one_edge_reports_zero (key : String) (ppr w m : ℚ)
    (evs : List EncEvent) (hc : countRising evs ≤ 1) :
    (runEvents (Encoder.init key ppr w m) evs).period = none
    ∧ (runEvents (Encoder.init key ppr w m) evs).rpmOut = 0 := by
  have hp := runEvents_period_none evs (Encoder.init key ppr w m)
    (init_period key ppr w m) (init_high_tick key ppr w m) hc
  exact ⟨hp, by simp [Encoder.rpmOut, hp]⟩

/-- Claim C10 witness: one rising edge surrounded by watchdog timeouts still
reports RPM 0. -/
theorem C10_witness :
    (runEvents (Encoder.init "rpm1i" 20 0 5)
        [.timeout, .rising 5, .timeout, .timeout]).rpmOut = 0 :=
  (C10_at_most_one_edge_reports_zero "rpm1i" 20 0 5
    [.timeout, .rising 5, .timeout, .timeout] (by decide)).2

/-! ## Claim C5 -/

lemma cbf_timeout_period (e : Encoder) (p : ℚ) (hp : e.period = some p) :
    (e.cbf 2 0).period =
      some (if p < 2000000000 then p + e.watchdog * 1000 else p) := by
  by_cases h : p < 2000000000 <;> simp [Encoder.cbf, hp, h]

lemma cbf_timeout_config (e : Encoder) :
    (e.cbf 2 0).pulses_per_rev = e.pulses_per_rev
    ∧ (e.cbf 2 0).min_RPM = e.min_RPM
    ∧ (e.cbf 2 0).watchdog = e.watchdog := by
  cases hp : e.period with
  | none => simp [Encoder.cbf, hp]
  | some p => by_cases h : p < 2000000000 <;> simp [Encoder.cbf, hp, h]

lemma afterTimeouts_succ (e : Encoder) (n : Nat) :
    e.afterTimeouts (n + 1) = (e.afterTimeouts n).cbf 2 0 := rfl

lemma afterTimeouts_config (e : Encoder) (n : Nat) :
    (e.afterTimeouts n).pulses_per_rev = e.pulses_per_rev
    ∧ (e.afterTimeouts n).min_RPM = e.min_RPM
    ∧ (e.afterTimeouts n).watchdog = e.watchdog := by
  induction n with
  | zero => exact ⟨rfl, rfl, rfl⟩
  | succ n ih =>
    have h := cbf_timeout_config (e.afterTimeouts n)
    rw [afterTimeouts_succ]
    exact ⟨h.1.trans ih.1, h.2.1.trans ih.2.1, h.2.2.trans ih.2.2⟩

lemma afterTimeouts_period (e : Encoder) (p : ℚ) (hp : e.period = some p)
    (hw : 0 ≤ e.watchdog) (n : Nat) :
    ∃ q, (e.afterTimeouts n).period = some q ∧ p ≤ q := by
  induction n with
  | zero => exact ⟨p, hp, le_refl p⟩
  | succ n ih =>
    obtain ⟨q, hq, hpq⟩ := ih
    rw [afterTimeouts_succ, cbf_timeout_period _ q hq,
      (afterTimeouts_config e n).2.2]
    by_cases h : q < 2000000000
    · exact ⟨q + e.watchdog * 1000, by rw [if_pos h], by nlinarith⟩
    · exact ⟨q, by rw [if_neg h], hpq⟩

lemma periodD_of_some (e : Encoder) (q : ℚ) (hq : e.period = some q) :
    periodD e = q := by simp [periodD, hq]

lemma rpmOut_zero_of_lt (e : Encoder) (q : ℚ) (hq : e.period = some q)
    (h : 60000000 / (q * e.pulses_per_rev) < e.min_RPM) : e.rpmOut = 0 := by
  simp [Encoder.rpmOut, hq, h]

/-- Claim C5: with a smoothed period present, each TIMEOUT event adds exactly
one watchdog interval (`watchdog * 1000` µs) to the period while it is below
the sentinel ceiling 2000000000 and leaves it unchanged once at or above it;
hence under consecutive timeouts the period is strictly increasing until
saturation, the derived RPM is strictly decreasing, and once the derived RPM
falls below `min_RPM` the reported RPM is clamped to 0. -/
theorem C5_timeout_decay (e : Encoder) (p : ℚ) (hp : e.period = some p)
    (hw : 0 < e.watchdog) :
    (∀ n, periodD (e.afterTimeouts n) < 2000000000 →
        periodD (e.afterTimeouts (n + 1)) =
          periodD (e.afterTimeouts n) + e.watchdog * 1000
        ∧ periodD (e.afterTimeouts n) < periodD (e.afterTimeouts (n + 1)))
    ∧ (∀ n, 2000000000 ≤ periodD (e.afterTimeouts n) →
        periodD (e.afterTimeouts (n + 1)) = periodD (e.afterTimeouts n))
    ∧ (0 < p → 0 < e.pulses_per_rev →
        ∀ n, periodD (e.afterTimeouts n) < 2000000000 →
          rpmOfPeriod (e.afterTimeouts (n + 1)) < rpmOfPeriod (e.afterTimeouts n))
    ∧ (∀ n, rpmOfPeriod (e.afterTimeouts n) < e.min_RPM →
        (e.afterTimeouts n).rpmOut = 0) := by
  have hw' : (0 : ℚ) ≤ e.watchdog := le_of_lt hw
  have hper : ∀ n, ∃ q, (e.afterTimeouts n).period = some q ∧ p ≤ q :=
    afterTimeouts_period e p hp hw'
  have hstep : ∀ n, periodD (e.afterTimeouts n) < 2000000000 →
      periodD (e.afterTimeouts (n + 1)) =
        periodD (e.afterTimeouts n) + e.watchdog * 1000 := by
    intro n hlt
    obtain ⟨q, hq, hpq⟩ := hper n
    rw [periodD_of_some _ q hq] at hlt ⊢
    rw [afterTimeouts_succ,
      periodD_of_some _ _ (cbf_timeout_period _ q hq),
      (afterTimeouts_config e n).2.2, if_pos hlt]
  refine ⟨?_, ?_, ?_, ?_⟩
  · intro n hlt
    refine ⟨hstep n hlt, ?_⟩
    rw [hstep n hlt]
    nlinarith
  · intro n hge
    obtain ⟨q, hq, hpq⟩ := hper n
    rw [periodD_of_some _ q hq] at hge ⊢
    rw [afterTimeouts_succ,
      periodD_of_some _ _ (cbf_timeout_period _ q hq),
      (afterTimeouts_config e n).2.2, if_neg (not_lt.mpr hge)]
  · intro hp0 hppr n hlt
    obtain ⟨q, hq, hpq⟩ := hper n
    have hq0 : 0 < q := lt_of_lt_of_le hp0 hpq
    have hdn : periodD (e.afterTimeouts n) = q := periodD_of_some _ q hq
    have hdn1 : periodD (e.afterTimeouts (n + 1)) = q + e.watchdog * 1000 := by
      rw [hstep n hlt, hdn]
    have hpprn : (e.afterTimeouts n).pulses_per_rev = e.pulses_per_rev :=
      (afterTimeouts_config e n).1
    have hpprn1 : (e.afterTimeouts (n + 1)).pulses_per_rev = e.pulses_per_rev :=
      (afterTimeouts_config e (n + 1)).1
    unfold rpmOfPeriod
    rw [hdn, hdn1, hpprn, hpprn1]
    have hpos1 : (0 : ℚ) < (q + e.watchdog * 1000) * e.pulses_per_rev :=
      mul_pos (by linarith) hppr
    have hpos2 : (0 : ℚ) < q * e.pulses_per_rev := mul_pos hq0 hppr
    rw [div_lt_div_iff₀ hpos1 hpos2]
    nlinarith
  · intro n hlt
    obtain ⟨q, hq, hpq⟩ := hper n
    unfold rpmOfPeriod at hlt
    rw [periodD_of_some _ q hq] at hlt
    rw [← (afterTimeouts_config e n).2.1] at hlt
    exact rpmOut_zero_of_lt _ q hq hlt

/-- The estimator after two rising edges 500000 µs apart: smoothed period
500000 µs. -/
def encT : Encoder := encW.cbf 1 500000

/-- Claim C5 witness: from a smoothed period of 500000 µs (below the
sentinel), one watchdog timeout extends the period by one watchdog interval
(200 ms = 200000 µs) to 700000 µs. -/
theorem C5_witness : periodD (encT.afterTimeouts 1) = 700000 := by
  have hper : encT.period = some 500000 := by
    norm_num [encT, encW, Encoder.init, Encoder.cbf, tickDiff, tickWrap]
  have hwd : encT.watchdog = 200 := rfl
  have h := (C5_timeout_decay encT 500000 hper (by rw [hwd]; norm_num)).1 0
    (by rw [show encT.afterTimeouts 0 = encT from rfl, periodD_of_some _ _ hper]
        norm_num)
  rw [h.1, show encT.afterTimeouts 0 = encT from rfl, periodD_of_some _ _ hper, hwd]
  norm_num

/-! ## Claim C4 -/

/-- Claim C4: on a RISING event (`level = 1`) arriving when a prior rising
timestamp is recorded, the handler computes the inter-pulse interval with
`pigpio.tickDiff`, which equals the forward timestamp difference modulo the
tick wrap modulus `2^32`; it sets the smoothed period to
`wOld·smoothed + wNew·delta` when a smoothed period exists and to `delta`
otherwise; and in all cases it records the new rising timestamp. -/
theorem C4_rising_edge (e : Encoder) (ht tick : Int) (hht : e.high_tick = some ht)
    (h1 : 0 ≤ ht) (h2 : ht < tickWrap) (h3 : 0 ≤ tick) (h4 : tick < tickWrap) :
    (e.cbf 1 tick).high_tick = some tick
    ∧ tickDiff ht tick = (tick - ht) % tickWrap
    ∧ tickWrap = 2 ^ 32
    ∧ (e.period = none → (e.cbf 1 tick).period = some ((tickDiff ht tick : Int) : ℚ))
    ∧ (∀ p, e.period = some p →
        (e.cbf 1 tick).period = some (e.wOld * p + e.wNew * ((tickDiff ht tick : Int) : ℚ))) := by
  refine ⟨?_, ?_, by norm_num [tickWrap], ?_, ?_⟩
  · cases hp : e.period <;> simp [Encoder.cbf, hht, hp]
  · unfold tickWrap at h2 h4
    unfold tickDiff tickWrap
    dsimp only
    split <;> omega
  · intro hp
    simp [Encoder.cbf, hht, hp]
  · intro p hp
    simp [Encoder.cbf, hht, hp]

/-- Claim C4 witness: from the recorded timestamp 0, a rising edge at tick 9
records timestamp 9 and initialises the smoothed period to 9. -/
theorem C4_witness :
    (encW.cbf 1 9).high_tick = some 9 ∧ (encW.cbf 1 9).period = some (9 : ℚ) := by
  have h := C4_rising_edge encW 0 9
    (by norm_num [encW, Encoder.init, Encoder.cbf])
    (by norm_num) (by norm_num [tickWrap]) (by norm_num) (by norm_num [tickWrap])
  refine ⟨h.1, ?_⟩
  have h2 := h.2.2.2.1 (by norm_num [encW, Encoder.init, Encoder.cbf])
  rw [h2]
  norm_num [tickDiff, tickWrap]

/-! ## Claim C8 -/

lemma addKey_of_not_mem (acc : List String) (k : String) (hk : k ∉ acc) :
    addKey acc k = acc ++ [k] := if_neg hk

lemma foldl_addKey (ks : List String) : ∀ acc : List String,
    (∀ k ∈ ks, k ∉ acc) → ks.Nodup → ks.foldl addKey acc = acc ++ ks := by
  induction ks with
  | nil => intro acc _ _; simp
  | cons k ks ih =>
    intro acc hnot hnd
    rcases List.nodup_cons.mp hnd with ⟨hkks, hndks⟩
    have hk : k ∉ acc := hnot k (List.mem_cons_self k ks)
    have h1 : ∀ x ∈ ks, x ∉ acc ++ [k] := by
      intro x hx
      simp only [List.mem_append, List.mem_singleton]
      rintro (hxa | rfl)
      · exact hnot x (List.mem_cons_of_mem _ hx) hxa
      · exact hkks hx
    calc (k :: ks).foldl addKey acc = ks.foldl addKey (addKey acc k) := rfl
      _ = ks.foldl addKey (acc ++ [k]) := by rw [addKey_of_not_mem acc k hk]
      _ = (acc ++ [k]) ++ ks := ih (acc ++ [k]) h1 hndks
      _ = acc ++ k :: ks := by simp

lemma scanKeys_single (d1 dev : String) (i1 : DevInfo) (ks : List String) :
    ∀ acc : List String, ks.Nodup → (∀ k ∈ ks, k ∉ acc) →
      scanKeys [(d1, i1)] dev acc ks =
        (acc ++ ks, (ks.filter fun k => k ∈ i1.dataKeys).map fun k => (d1, k)) := by
  induction ks with
  | nil => intro acc _ _; simp [scanKeys]
  | cons k ks ih =>
    intro acc hnd hnot
    rcases List.nodup_cons.mp hnd with ⟨hkks, hndks⟩
    have hk : k ∉ acc := hnot k (List.mem_cons_self k ks)
    have h1 : ∀ x ∈ ks, x ∉ acc ++ [k] := by
      intro x hx
      simp only [List.mem_append, List.mem_singleton]
      rintro (hxa | rfl)
      · exact hnot x (List.mem_cons_of_mem _ hx) hxa
      · exact hkks hx
    rw [scanKeys, addKey_of_not_mem acc k hk, ih (acc ++ [k]) hndks h1]
    by_cases hmem : k ∈ i1.dataKeys <;>
      simp [hk, hmem, List.filter_cons]

/-- The registry state after the two registrations of the counterexample:
both devices own the key `"k"`, and the warning list is empty. -/
def regCE : RegState :=
  ⟨[("devA", ⟨["k"], "x", "pi2nred/x/p", false⟩),
    ("devB", ⟨["k"], "y", "pi2nred/y/q", false⟩)],
   ["nred2pi/xZCMD/+", "nred2pi/yZCMD/+"], []⟩

/-- Claim C8 counterexample: two devices registered with different `lvl2`
values (hence distinct subscribe topics) but the same sensor key `"k"`: the
registration succeeds, both devices own `"k"`, yet no collision warning at
all is logged — the duplicate-key scan runs only when the derived subscribe
topic is already registered. -/
theorem C8_counterexample :
    ((setup_device emptyReg "devA" "x" "p" ["k"]).bind fun st1 =>
        setup_device st1 "devB" "y" "q" ["k"]) = some regCE
    ∧ regCE.warnings = []
    ∧ regCE.deviceD.lookup "devA" = some ⟨["k"], "x", "pi2nred/x/p", false⟩
    ∧ regCE.deviceD.lookup "devB" = some ⟨["k"], "y", "pi2nred/y/q", false⟩ := by
  refine ⟨by decide, rfl, by decide, by decide⟩

/-- Claim C8 (amended): a duplicate device id is fatal (`sys.exit`, modelled
as `none`); a registration whose derived subscribe topic is new emits no
collision warnings at all, even when sensor keys overlap an existing
device's; and when a second device reuses the first device's `lvl2` (so the
topic is already registered), registration succeeds, one warning is emitted
per overlapping key, and both devices keep the key. -/
theorem C8_duplicate_and_collision_rules :
    (∀ (st : RegState) (device lvl2 publvl3 : String) (keys : List String)
        (i : DevInfo), st.deviceD.lookup device = some i →
        setup_device st device lvl2 publvl3 keys = none)
    ∧ (∀ (st : RegState) (device lvl2 publvl3 : String) (keys : List String),
        st.deviceD.lookup device = none → mkTopic lvl2 ∉ st.subTopics →
        ∃ st', setup_device st device lvl2 publvl3 keys = some st'
          ∧ st'.warnings = st.warnings)
    ∧ (∀ (d1 d2 l p1 p2 : String) (ks1 ks2 : List String),
        d1 ≠ d2 → ks1.Nodup → ks2.Nodup →
        ∃ st1 st2 i1 i2,
          setup_device emptyReg d1 l p1 ks1 = some st1
          ∧ setup_device st1 d2 l p2 ks2 = some st2
          ∧ st2.warnings = ((ks2.filter fun k => k ∈ ks1).map fun k => (d1, k))
          ∧ st2.deviceD.lookup d1 = some i1 ∧ i1.dataKeys = ks1
          ∧ st2.deviceD.lookup d2 = some i2 ∧ i2.dataKeys = ks2) := by
  refine ⟨?_, ?_, ?_⟩
  · intro st device lvl2 publvl3 keys i hi
    unfold setup_device
    rw [hi]
  · intro st device lvl2 publvl3 keys hnone htop
    refine ⟨⟨st.deviceD ++ [(device, ⟨keys.foldl addKey [], lvl2,
        mkPubTopic lvl2 publvl3, false⟩)], st.subTopics ++ [mkTopic lvl2],
        st.warnings⟩, ?_, rfl⟩
    unfold setup_device
    rw [hnone, if_neg htop]
  · intro d1 d2 l p1 p2 ks1 ks2 hne hnd1 hnd2
    have hbeq : (d2 == d1) = false := beq_eq_false_iff_ne.mpr (Ne.symm hne)
    have hfold : ks1.foldl addKey [] = ks1 := by
      have := foldl_addKey ks1 [] (fun k _ => List.not_mem_nil k) hnd1
      simpa using this
    have h1 : setup_device emptyReg d1 l p1 ks1 =
        some ⟨[(d1, ⟨ks1, l, mkPubTopic l p1, false⟩)], [mkTopic l], []⟩ := by
      unfold setup_device emptyReg
      simp [List.lookup, hfold]
    set i1 : DevInfo := ⟨ks1, l, mkPubTopic l p1, false⟩ with hi1
    set st1 : RegState := ⟨[(d1, i1)], [mkTopic l], []⟩ with hst1
    have hlk : st1.deviceD.lookup d2 = none := by
      simp [hst1, List.lookup, hbeq]
    have hscan := scanKeys_single d1 d2 i1 ks2 [] hnd2 (fun k _ => List.not_mem_nil k)
    have h2 : setup_device st1 d2 l p2 ks2 =
        some ⟨[(d1, i1), (d2, ⟨ks2, l, mkPubTopic l p2, false⟩)], [mkTopic l],
          ((ks2.filter fun k => k ∈ ks1).map fun k => (d1, k))⟩ := by
      unfold setup_device
      rw [hlk]
      rw [if_pos (by simp [hst1] : mkTopic l ∈ st1.subTopics)]
      rw [hscan]
      simp [hst1, hi1]
    refine ⟨_, _, i1, ⟨ks2, l, mkPubTopic l p2, false⟩, h1, h2, rfl, ?_, rfl, ?_, rfl⟩
    · simp [List.lookup]
    · simp [List.lookup, hbeq]

/-- Claim C8 witness: the repository's own configuration — `dc_motor2`
registered after `dc_motor1` with the same `lvl2` and the same key list
`['a0f', 'a1f', 'etc']` — succeeds and logs exactly one collision warning per
overlapping key, while a duplicate device id is fatal. -/
theorem C8_witness :
    ∃ st1 st2,
      setup_device emptyReg "dc_motor1" "buggy" "pispeedSensor"
          ["a0f", "a1f", "etc"] = some st1
      ∧ setup_device st1 "dc_motor2" "buggy" "pispeedSensor"
          ["a0f", "a1f", "etc"] = some st2
      ∧ st2.warnings =
          [("dc_motor1", "a0f"), ("dc_motor1", "a1f"), ("dc_motor1", "etc")]
      ∧ setup_device st2 "dc_motor1" "buggy" "pispeedSensor" ["a0f"] = none := by
  obtain ⟨st1, st2, i1, i2, h1, h2, hw, hl1, hk1, hl2, hk2⟩ :=
    C8_duplicate_and_collision_rules.2.2 "dc_motor1" "dc_motor2" "buggy"
      "pispeedSensor" "pispeedSensor" ["a0f", "a1f", "etc"] ["a0f", "a1f", "etc"]
      (by decide) (by decide) (by decide)
  refine ⟨st1, st2, h1, h2, by rw [hw]; decide, ?_⟩
  exact C8_duplicate_and_collision_rules.1 st2 "dc_motor1" "buggy"
    "pispeedSensor" ["a0f"] i1 hl1
